import Mathlib

/-!
Verification development for the IDAES property-package tutorial notebooks
(`Intro_to_Prop_Packages_Tutorial.ipynb`, `Reaction_Prop_Packages_Tutorial.ipynb`).

The notebooks define an HDA thermophysical property package (state block with
flow, per-component mole fractions, temperature, pressure, a derived density
variable with an ideal-gas constraint, a mole-fraction-sum consistency
constraint, and an ideal-gas enthalpy expression) together with an
initialization protocol (`prepare_state`, `initialize_state`, `restore_state`,
`unfix_state`, `release_state`, and the `_HDAStateBlock.initialize` method),
and an HDA reaction property package (Arrhenius rate constraint, rate
expression, equilibrium constraint, and a log-only `_HDAReactionBlock.initialize`).

Framework helpers imported by the notebooks (`fix_state_vars`,
`revert_state_vars`, `degrees_of_freedom`, `number_unfixed_variables`) are not
part of the repository; they are modelled from the specification, as marked in
their doc comments.  Everything else is translated directly from the notebook
cells.
-/

namespace HDA

/-- The five chemical components declared in `define_components_and_phases`
(`self.benzene = Component()`, ..., `self.diphenyl = Component()`). -/
inductive Comp
  | benzene
  | toluene
  | methane
  | hydrogen
  | diphenyl
  deriving DecidableEq, Fintype

/-- The parameter block's `component_list`, in declaration order. -/
def componentList : List Comp :=
  [Comp.benzene, Comp.toluene, Comp.methane, Comp.hydrogen, Comp.diphenyl]

/-- A Pyomo `Var` as seen by the initialization protocol: its current value
and its fixed/free status.  Values are modelled as exact rationals. -/
structure VarState where
  value : ℚ
  fixed : Bool
  deriving DecidableEq

/-- One sub-block of the indexed HDA state block, holding the state variables
declared in `add_state_variables` (`flow_mol`, `mole_frac_comp`,
`temperature`, `pressure`), the derived `dens_mol` variable and its
`ideal_gas_eq` constraint from `add_molecular_weight_and_density`, the
`config.defined_state` flag, and the `mole_fraction_constraint` created by
`add_mole_fraction_constraint` (`none` when the constraint object was never
created, `some a` when it exists with active-status `a`). -/
structure SubBlock where
  flow_mol : VarState
  mole_frac_comp : Comp → VarState
  temperature : VarState
  pressure : VarState
  dens_mol : VarState
  ideal_gas_eq_active : Bool
  defined_state : Bool
  mole_fraction_constraint : Option Bool
  deriving DecidableEq

/-- The `state_args` dictionary passed to `initialize`: an optional target
value for each state variable. -/
structure StateArgs where
  flow_mol : Option ℚ
  mole_frac_comp : Comp → Option ℚ
  temperature : Option ℚ
  pressure : Option ℚ
  deriving DecidableEq

/-- Modelled from the spec: one entry of the `FixFlags` record produced by
the framework's `fix_state_vars` — it captures the state variable's
pre-`prepare` fixed/free status, and the pre-`prepare` value that `release`
later restores ("restores each state variable to its pre-`prepare` fixed/free
status and value"). -/
structure FixFlag where
  fixed : Bool
  value : ℚ
  deriving DecidableEq

/-- The `FixFlags` entries for the four state variables of one sub-block. -/
structure SubFlags where
  flow_mol : FixFlag
  mole_frac_comp : Comp → FixFlag
  temperature : FixFlag
  pressure : FixFlag
  deriving DecidableEq

/-- The `FixFlags` record for the whole indexed block, one entry per key of
`blk.keys()`. -/
abbrev Flags := List SubFlags

/-- Modelled from the spec: fixing one state variable.  The prior fixed/free
status and value are recorded in the flag; the variable is fixed, drawing its
value from `state_args` when it was free (falling back to the value it
currently holds, i.e. its declared initial value at initialization time), and
keeping its value when it was already fixed. -/
def fixVar (arg : Option ℚ) (v : VarState) : VarState × FixFlag :=
  (⟨if v.fixed then v.value else arg.getD v.value, true⟩, ⟨v.fixed, v.value⟩)

/-- Modelled from the spec: `fix_state_vars` applied to one sub-block — fixes
each of the four state variables named by `return_state_var_dict`, recording
prior status in the flags. -/
def fixSub (args : StateArgs) (b : SubBlock) : SubBlock × SubFlags :=
  ({ b with
      flow_mol := (fixVar args.flow_mol b.flow_mol).1
      mole_frac_comp := fun j => (fixVar (args.mole_frac_comp j) (b.mole_frac_comp j)).1
      temperature := (fixVar args.temperature b.temperature).1
      pressure := (fixVar args.pressure b.pressure).1 },
   ⟨(fixVar args.flow_mol b.flow_mol).2,
    fun j => (fixVar (args.mole_frac_comp j) (b.mole_frac_comp j)).2,
    (fixVar args.temperature b.temperature).2,
    (fixVar args.pressure b.pressure).2⟩)

/-- Modelled from the spec: the framework's `fix_state_vars(blk, state_args)`
over every key of the indexed block, returning the updated blocks and the
`FixFlags` record. -/
def fix_state_vars (blk : List SubBlock) (args : StateArgs) :
    List SubBlock × Flags :=
  (blk.map (fun b => (fixSub args b).1), blk.map (fun b => (fixSub args b).2))

/-- Modelled from the spec: reverting one state variable — `release` "restores
each state variable to its pre-`prepare` fixed/free status and value". -/
def revertVar (f : FixFlag) (_v : VarState) : VarState :=
  ⟨f.value, f.fixed⟩

/-- Modelled from the spec: `revert_state_vars` applied to one sub-block. -/
def revertSub (f : SubFlags) (b : SubBlock) : SubBlock :=
  { b with
      flow_mol := revertVar f.flow_mol b.flow_mol
      mole_frac_comp := fun j => revertVar (f.mole_frac_comp j) (b.mole_frac_comp j)
      temperature := revertVar f.temperature b.temperature
      pressure := revertVar f.pressure b.pressure }

/-- Modelled from the spec: the framework's `revert_state_vars(blk, flags)`
over every key of the indexed block. -/
def revert_state_vars (blk : List SubBlock) (flags : Flags) : List SubBlock :=
  List.zipWith revertSub flags blk

/-- The body of `prepare_state`'s deactivation loop:
`if blk[k].config.defined_state is False: blk[k].mole_fraction_constraint.deactivate()`.
A sub-block whose state is externally defined is returned untouched. -/
def deactivateStep (b : SubBlock) : SubBlock :=
  if b.defined_state = false then
    { b with mole_fraction_constraint := b.mole_fraction_constraint.map (fun _ => false) }
  else b

/-- The body of `unfix_state`'s reactivation loop:
`if blk[k].config.defined_state is False: blk[k].mole_fraction_constraint.activate()`. -/
def activateStep (b : SubBlock) : SubBlock :=
  if b.defined_state = false then
    { b with mole_fraction_constraint := b.mole_fraction_constraint.map (fun _ => true) }
  else b

/-- Number of unfixed `Var`s of one sub-block: the four state variables
(`mole_frac_comp` counted once per component) plus `dens_mol`. -/
def unfixedVarCount (b : SubBlock) : Nat :=
  (([b.flow_mol] ++ componentList.map b.mole_frac_comp
      ++ [b.temperature, b.pressure, b.dens_mol]).countP (fun v => !v.fixed))

/-- Number of active equality constraints of one sub-block: `ideal_gas_eq`
plus the `mole_fraction_constraint` when it exists and is active. -/
def activeConstraintCount (b : SubBlock) : Nat :=
  (if b.ideal_gas_eq_active then 1 else 0)
    + (match b.mole_fraction_constraint with
        | some true => 1
        | _ => 0)

/-- Modelled from the spec: the framework's degrees-of-freedom inspector,
"free variables minus independent active equality constraints". -/
def degrees_of_freedom (b : SubBlock) : Int :=
  (unfixedVarCount b : Int) - (activeConstraintCount b : Int)

/-- Modelled from the spec: the framework's `number_unfixed_variables`
(correct spelling, as imported by the notebook). -/
def number_unfixed_variables (b : SubBlock) : Nat :=
  unfixedVarCount b

/-- Python exceptions observable from the initialization protocol:
`NameError` (unbound name), `AttributeError` (missing attribute), and the
generic `Exception` raised by `prepare_state`'s degrees-of-freedom check,
which the spec names `PreconditionError`. -/
inductive PyError
  | nameError
  | attributeError
  | preconditionError
  deriving DecidableEq

/-- The blocks as they stand after `prepare_state`'s fixing step and
deactivation loop, before the degrees-of-freedom check. -/
def preparedBlocks (blk : List SubBlock) (args : StateArgs)
    (state_vars_fixed : Bool) : List SubBlock :=
  (if state_vars_fixed = false then (fix_state_vars blk args).1 else blk).map
    deactivateStep

/-- `prepare_state(blk, state_args, state_vars_fixed)` from the notebook:
fixes the state variables (recording flags) unless `state_vars_fixed`,
deactivates the mole-fraction constraint of every sub-block whose state is not
externally defined, then raises (`PreconditionError` in the spec's naming) if
any sub-block has nonzero degrees of freedom; otherwise returns the flags. -/
def prepare_state (blk : List SubBlock) (args : StateArgs)
    (state_vars_fixed : Bool) : Except PyError (List SubBlock × Option Flags) :=
  if (preparedBlocks blk args state_vars_fixed).all
      (fun b => degrees_of_freedom b == 0) then
    Except.ok (preparedBlocks blk args state_vars_fixed,
      if state_vars_fixed = false then some (fix_state_vars blk args).2 else none)
  else
    Except.error PyError.preconditionError

/-- The notebook's `initialize_state` reads the name
`number_unifxed_variables`, which is unbound (the import is
`number_unfixed_variables`); evaluating it raises `NameError`. -/
def number_unifxed_variables (_b : SubBlock) : Except PyError Int :=
  Except.error PyError.nameError

/-- The notebook's `initialize_state` formats its final log line with
`str.formate`, an attribute `str` does not have; the lookup raises
`AttributeError`. -/
def strFormate : Except PyError String :=
  Except.error PyError.attributeError

/-- `initialize_state(blk, solver, init_log, solve_log)` from the notebook,
translated literally: sum `number_unifxed_variables(blk[k])` over the keys
(this raises `NameError` on every nonempty block); if the count is positive,
solve inside `try`/bare-`except` (an exception leaves `res = None`); finally
log via `str.formate`, which raises `AttributeError`. -/
def initialize_state (solve : List SubBlock → Except Unit (List SubBlock))
    (blk : List SubBlock) : Except PyError (List SubBlock × Option Unit) := do
  let free_vars ← blk.foldlM
    (fun acc b => do
      let n ← number_unifxed_variables b
      pure (acc + n)) (0 : Int)
  let p : List SubBlock × Option Unit :=
    if 0 < free_vars then
      match solve blk with
      | Except.ok blk2 => (blk2, some ())
      | Except.error _ => (blk, none)
    else (blk, none)
  let _msg ← strFormate
  pure p

/-- `unfix_state(blk, flags, outlvl)` from the notebook: reactivate the
mole-fraction constraint of every sub-block whose state is not externally
defined, then revert the state variables when flags are present. -/
def unfix_state (blk : List SubBlock) (flags : Option Flags) : List SubBlock :=
  let blk1 := blk.map activateStep
  match flags with
  | some fl => revert_state_vars blk1 fl
  | none => blk1

/-- `_HDAStateBlock.release_state(blk, flags, outlvl)`: delegates to
`unfix_state` (the out-level only tunes logging). -/
def release_state (blk : List SubBlock) (flags : Option Flags) : List SubBlock :=
  unfix_state blk flags

/-- `restore_state(blk, flags, hold_state)` from the notebook.  The pair is
(resulting blocks, Python return value): with `hold_state` the flags are
returned and the blocks untouched; otherwise `blk.release_state(flags)` runs
and the function returns `None`. -/
def restore_state (blk : List SubBlock) (flags : Option Flags)
    (hold_state : Bool) : List SubBlock × Option Flags :=
  if hold_state then (blk, flags)
  else (release_state blk flags, none)

/-- `_HDAStateBlock.initialize` translated literally: `prepare_state`, then
`initialize_state`, then `restore_state` with its return value discarded; the
method body has no `return` statement, so a normal completion returns `None`
(first component), alongside the final block state (second component). -/
def hda_initialize_method (solve : List SubBlock → Except Unit (List SubBlock))
    (blk : List SubBlock) (args : StateArgs) (state_vars_fixed hold_state : Bool) :
    Except PyError (Option Flags × List SubBlock) :=
  match prepare_state blk args state_vars_fixed with
  | Except.error e => Except.error e
  | Except.ok pr =>
    match initialize_state solve pr.1 with
    | Except.error e => Except.error e
    | Except.ok st =>
      Except.ok (none, (restore_state st.1 pr.2 hold_state).1)

/-- Modelled from the spec: `initialize_state` with the two misspellings the
spec's design notes single out as defects repaired — the free-variable count
calls `number_unfixed_variables` (the actual import) and the log line uses
`str.format`.  The spec directs that this documented intent, not the literal
broken code, is the contract. -/
def initialize_state_intended (solve : List SubBlock → Except Unit (List SubBlock))
    (blk : List SubBlock) : List SubBlock × Option Unit :=
  let free_vars := blk.foldl (fun acc b => acc + number_unfixed_variables b) 0
  if 0 < free_vars then
    match solve blk with
    | Except.ok blk2 => (blk2, some ())
    | Except.error _ => (blk, none)
  else (blk, none)

/-- `_HDAStateBlock.initialize` with the intended (spec-directed) repair of
`initialize_state`; the `restore_state` return value is still discarded and
the method still falls off its body, returning `None`. -/
def hda_initialize_method_intended
    (solve : List SubBlock → Except Unit (List SubBlock))
    (blk : List SubBlock) (args : StateArgs) (state_vars_fixed hold_state : Bool) :
    Except PyError (Option Flags × List SubBlock) :=
  match prepare_state blk args state_vars_fixed with
  | Except.error e => Except.error e
  | Except.ok pr =>
    Except.ok
      (none, (restore_state (initialize_state_intended solve pr.1).1 pr.2 hold_state).1)

/-- `add_mole_fraction_constraint` from the notebook: the
`mole_fraction_constraint` (sum of mole fractions equals one) is created only
when `self.config.defined_state is False`; a freshly created Pyomo constraint
is active.  The result is the `mole_fraction_constraint` field a sub-block
carries after `build`. -/
def add_mole_fraction_constraint (defined_state : Bool) : Option Bool :=
  if defined_state = false then some true else none

/-- The reference temperature `temperature_ref` (mutable `Param`, default
298.15 K) from `define_basic_parameters`. -/
def temperature_ref : ℚ := 29815 / 100

/-- The reference pressure `pressure_ref` (mutable `Param`, default
101325 Pa) from `define_basic_parameters`. -/
def pressure_ref : ℚ := 101325

/-- Heat-capacity coefficient A from `define_specific_heat_parameters`
(J/mol/K). -/
def cp_mol_ig_comp_coeff_A : Comp → ℚ
  | Comp.benzene => -33921 / 1000
  | Comp.toluene => -2435 / 100
  | Comp.hydrogen => 2714 / 100
  | Comp.methane => 1925 / 100
  | Comp.diphenyl => -9707 / 100

/-- Heat-capacity coefficient B from `define_specific_heat_parameters`
(J/mol/K^2). -/
def cp_mol_ig_comp_coeff_B : Comp → ℚ
  | Comp.benzene => 4739 / 100
  | Comp.toluene => 5125 / 10000
  | Comp.hydrogen => 9274 / 1000000
  | Comp.methane => 5213 / 100000
  | Comp.diphenyl => 1106 / 1000

/-- Heat-capacity coefficient C from `define_specific_heat_parameters`
(J/mol/K^3). -/
def cp_mol_ig_comp_coeff_C : Comp → ℚ
  | Comp.benzene => -3017 / 10000000
  | Comp.toluene => -2765 / 10000000
  | Comp.hydrogen => -1381 / 100000000
  | Comp.methane => -8855 / 10000000
  | Comp.diphenyl => -8855 / 10000000

/-- Heat-capacity coefficient D from `define_specific_heat_parameters`
(J/mol/K^4). -/
def cp_mol_ig_comp_coeff_D : Comp → ℚ
  | Comp.benzene => 7130 / 100000000000
  | Comp.toluene => 4911 / 100000000000
  | Comp.hydrogen => 7645 / 1000000000000
  | Comp.methane => -1132 / 100000000000
  | Comp.diphenyl => 2790 / 10000000000

/-- Standard heat of formation at the reference state,
`enth_mol_form_vap_comp_ref`, from `define_specific_heat_parameters`
(J/mol). -/
def enth_mol_form_vap_comp_ref : Comp → ℚ
  | Comp.benzene => -82900
  | Comp.toluene => -50100
  | Comp.hydrogen => 0
  | Comp.methane => -75000
  | Comp.diphenyl => -180000

/-- The `enth_mol` expression built by `add_enth_mol`'s `enth_rule`: the sum
over the component list of the mole fraction times the integrated
heat-capacity polynomial plus the reference heat of formation.  `x` is
`mole_frac_comp`, `T` is `temperature`, `Tr` is `params.temperature_ref`. -/
def enth_mol (x : Comp → ℚ) (T Tr : ℚ) : ℚ :=
  (componentList.map (fun j =>
      x j *
        ((cp_mol_ig_comp_coeff_D j / 4) * (T ^ 4 - Tr ^ 4)
          + (cp_mol_ig_comp_coeff_C j / 3) * (T ^ 3 - Tr ^ 3)
          + (cp_mol_ig_comp_coeff_B j / 2) * (T ^ 2 - Tr ^ 2)
          + cp_mol_ig_comp_coeff_A j * (T - Tr)
          + enth_mol_form_vap_comp_ref j))).sum

/-- Lower bound of the `pressure` state variable declared in
`add_state_variables` (`bounds=(101325, 400000)`). -/
def pressure_lower_bound : ℚ := 101325

/-- Upper bound of the `pressure` state variable declared in
`add_state_variables`. -/
def pressure_upper_bound : ℚ := 400000

/-- The equilibrium constant `k_eq` (`Param`, `initialize=10000`, Pa) from
`define_variables_and_parameters` of the reaction notebook. -/
def k_eq : ℚ := 10000

/-- The `equilibrium_constraint` built by `define_equilibrium_expression` of
the reaction notebook, in its multiplied-through form:
`k_eq * x[benzene] * P == x[diphenyl] * x[hydrogen] * P^2`. -/
def equilibrium_constraint (kEq : ℚ) (x : Comp → ℚ) (P : ℚ) : Prop :=
  kEq * x Comp.benzene * P = x Comp.diphenyl * x Comp.hydrogen * P ^ 2

/-- One HDA reaction block (`HDAReactionBlockData` after `build`): the
`k_rxn` and `reaction_rate` variables from
`define_variables_and_parameters` (the rate-reaction index set is the
singleton `R1`), and the active-status of the three constraints built by
`define_rate_expression` and `define_equilibrium_expression`. -/
structure ReactionBlock where
  k_rxn : VarState
  reaction_rate_R1 : VarState
  arrhenius_equation_active : Bool
  rate_expression_R1_active : Bool
  equilibrium_constraint_active : Bool
  deriving DecidableEq

/-- `_HDAReactionBlock.initialize` from the reaction notebook: the body only
builds a logger and emits one info line; the pair returned is (block state
after the call, log lines emitted).  `outlvl` and the keyword arguments are
accepted and unused, as in the source. -/
def hda_reaction_initialize_method (blk : ReactionBlock) (_outlvl : Nat)
    (_kwargs : List (String × String)) : ReactionBlock × List String :=
  (blk, ["Initialization complete."])

/-- The fixed/free discipline the external solver obeys on one variable: the
solver never changes a variable's fixed status, and never changes the value of
a fixed variable (free variables may move arbitrarily). -/
def fixedPreserved (v w : VarState) : Prop :=
  w.fixed = v.fixed ∧ (v.fixed = true → w.value = v.value)

/-- Relational model of one solver step on one sub-block: constraints and
configuration are untouched and every state variable obeys
`fixedPreserved` (`dens_mol` and other free variables may be moved). -/
def solverPreserves (b c : SubBlock) : Prop :=
  c.defined_state = b.defined_state ∧
  c.mole_fraction_constraint = b.mole_fraction_constraint ∧
  fixedPreserved b.flow_mol c.flow_mol ∧
  (∀ j, fixedPreserved (b.mole_frac_comp j) (c.mole_frac_comp j)) ∧
  fixedPreserved b.temperature c.temperature ∧
  fixedPreserved b.pressure c.pressure

/-- The observable state of a sub-block for the round-trip law: the four
state variables (value and fixed status) and the mole-fraction consistency
constraint. -/
def observedState (b : SubBlock) :
    VarState × (Comp → VarState) × VarState × VarState × Option Bool :=
  (b.flow_mol, b.mole_frac_comp, b.temperature, b.pressure,
    b.mole_fraction_constraint)

/-- A free variable holding value 1, for concrete test blocks. -/
def wVarFree : VarState := ⟨1, false⟩

/-- A fixed variable holding value 1, for concrete test blocks. -/
def wVarFixed : VarState := ⟨1, true⟩

/-- Concrete `state_args` mirroring the reaction notebook's call to
`m.fs.reactor.initialize`. -/
def wArgs : StateArgs :=
  ⟨some 100, fun _ => some (1 / 5), some 600, some 350000⟩

/-- A malformed sub-block: externally defined state, no mole-fraction
constraint, `ideal_gas_eq` inactive but `dens_mol` free, so fixing the state
variables still leaves one degree of freedom. -/
def badBlock : SubBlock :=
  ⟨wVarFree, fun _ => wVarFree, wVarFree, wVarFree, wVarFree, false, true, none⟩

/-- A well-built internal-state sub-block fresh from `build`: all variables
free, `ideal_gas_eq` active, `defined_state` false, mole-fraction constraint
present and active. -/
def goodBlockPre : SubBlock :=
  ⟨wVarFree, fun _ => wVarFree, wVarFree, wVarFree, wVarFree, true, false, some true⟩

/-- A well-built boundary sub-block whose state variables are already fixed
by the caller: `defined_state` true, no mole-fraction constraint,
`ideal_gas_eq` active, `dens_mol` free. -/
def goodBlockFixed : SubBlock :=
  ⟨wVarFixed, fun _ => wVarFixed, wVarFixed, wVarFixed, wVarFree, true, true, none⟩

/-- A solver stub that succeeds and returns the blocks unchanged. -/
def solveOk : List SubBlock → Except Unit (List SubBlock) :=
  fun l => Except.ok l

/-- Sample mole fractions for the equilibrium scenario: they sum to one and
satisfy `k_eq = x[diphenyl]*x[hydrogen]*P^2 / (x[benzene]*P)` at
`P = 350000`, `k_eq = 10000`. -/
def xSample : Comp → ℚ
  | Comp.benzene => 7 / 20
  | Comp.toluene => 7 / 20
  | Comp.hydrogen => 1 / 10
  | Comp.methane => 1 / 10
  | Comp.diphenyl => 1 / 10

/-! ## Helper lemmas -/

theorem deactivateStep_defined_state (b : SubBlock) :
    (deactivateStep b).defined_state = b.defined_state := by
  unfold deactivateStep
  split <;> rfl

theorem deactivateStep_constraint (b : SubBlock) :
    (deactivateStep b).mole_fraction_constraint =
      if b.defined_state = false then
        b.mole_fraction_constraint.map (fun _ => false)
      else b.mole_fraction_constraint := by
  unfold deactivateStep
  split <;> simp_all

theorem solverPreserves_refl (b : SubBlock) : solverPreserves b b :=
  ⟨rfl, rfl, ⟨rfl, fun _ => rfl⟩, fun _ => ⟨rfl, fun _ => rfl⟩,
    ⟨rfl, fun _ => rfl⟩, ⟨rfl, fun _ => rfl⟩⟩

theorem initialize_state_always_errors
    (solve : List SubBlock → Except Unit (List SubBlock)) (blk : List SubBlock) :
    initialize_state solve blk =
      Except.error
        (if blk.isEmpty then PyError.attributeError else PyError.nameError) := by
  cases blk with
  | nil => rfl
  | cons b bs => rfl

theorem roundtrip_block (args : StateArgs) (b c : SubBlock)
    (hact : b.defined_state = false → b.mole_fraction_constraint = some true)
    (hs : solverPreserves (deactivateStep (fixSub args b).1) c) :
    observedState (revertSub (fixSub args b).2 (activateStep c)) = observedState b := by
  obtain ⟨hds, hcon, -, -, -, -⟩ := hs
  have hcds : c.defined_state = b.defined_state := by
    rw [hds, deactivateStep_defined_state]
    rfl
  have hfix : ((fixSub args b).1).mole_fraction_constraint =
      b.mole_fraction_constraint := rfl
  have hfds : ((fixSub args b).1).defined_state = b.defined_state := rfl
  have hstep : observedState (revertSub (fixSub args b).2 (activateStep c)) =
      (b.flow_mol, b.mole_frac_comp, b.temperature, b.pressure,
        (activateStep c).mole_fraction_constraint) := rfl
  rw [hstep]
  have hkey : (activateStep c).mole_fraction_constraint =
      b.mole_fraction_constraint := by
    rw [deactivateStep_constraint, hfix, hfds] at hcon
    by_cases hb : b.defined_state = false
    · rw [if_pos hb, hact hb] at hcon
      have hc : c.mole_fraction_constraint = some false := by
        rw [hcon]
        rfl
      have hcf : c.defined_state = false := by rw [hcds, hb]
      unfold activateStep
      rw [if_pos hcf]
      show Option.map (fun _ => true) c.mole_fraction_constraint =
        b.mole_fraction_constraint
      rw [hc, hact hb]
      rfl
    · rw [if_neg hb] at hcon
      have hcf : ¬c.defined_state = false := by
        rw [hcds]
        exact hb
      unfold activateStep
      rw [if_neg hcf]
      exact hcon
  rw [hkey]
  rfl

theorem roundtrip_list (args : StateArgs) :
    ∀ (blk blkS : List SubBlock),
      (∀ b ∈ blk, b.defined_state = false → b.mole_fraction_constraint = some true) →
      List.Forall₂ solverPreserves
        (blk.map (fun b => deactivateStep (fixSub args b).1)) blkS →
      (List.zipWith revertSub (blk.map (fun b => (fixSub args b).2))
          (blkS.map activateStep)).map observedState = blk.map observedState := by
  intro blk
  induction blk with
  | nil =>
    intro blkS hact hs
    cases hs
    rfl
  | cons b bs ih =>
    intro blkS hact hs
    rw [List.map_cons] at hs
    cases hs with
    | cons hbc htl =>
      simp only [List.map_cons, List.zipWith_cons_cons, List.cons.injEq]
      constructor
      · exact roundtrip_block args b _ (hact b (List.mem_cons_self b bs)) hbc
      · exact ih _ (fun x hx => hact x (List.mem_cons_of_mem b hx)) htl

theorem solverPreserves_forall₂_refl (l : List SubBlock) :
    List.Forall₂ solverPreserves l l := by
  induction l with
  | nil => exact List.Forall₂.nil
  | cons x xs ih => exact List.Forall₂.cons (solverPreserves_refl x) ih

/-! ## Claim theorems -/

/-- C1: Round-trip law.  For an indexed state block whose state variables were
not already fixed (`state_vars_fixed = False`, so `prepare_state` produces
non-null `FixFlags`) and whose consistency constraints were active where they
exist, running release (`unfix_state` with those flags) after `prepare_state`
and the solve step restores every state variable's fixed/free status and
value, and reactivates the mole-fraction consistency constraint, so each
sub-block's observable state equals its original pre-`prepare` state. -/
theorem release_after_prepare_roundtrip
    {blk blk2 blkS : List SubBlock} {args : StateArgs} {fl : Option Flags}
    (hact : ∀ b ∈ blk, b.defined_state = false → b.mole_fraction_constraint = some true)
    (hprep : prepare_state blk args false = Except.ok (blk2, fl))
    (hsolve : List.Forall₂ solverPreserves blk2 blkS) :
    fl.isSome = true ∧
    (unfix_state blkS fl).map observedState = blk.map observedState := by
  unfold prepare_state at hprep
  split at hprep
  · rw [if_pos rfl, Except.ok.injEq, Prod.mk.injEq] at hprep
    obtain ⟨hblk2, hfl⟩ := hprep
    subst hblk2
    subst hfl
    have hpb : preparedBlocks blk args false =
        blk.map (fun b => deactivateStep (fixSub args b).1) := by
      unfold preparedBlocks fix_state_vars
      rw [if_pos rfl, List.map_map]
      rfl
    rw [hpb] at hsolve
    refine ⟨rfl, ?_⟩
    show (List.zipWith revertSub (blk.map (fun b => (fixSub args b).2))
        (blkS.map activateStep)).map observedState = blk.map observedState
    exact roundtrip_list args blk blkS hact hsolve
  · exact absurd hprep (by simp)

/-- Witness for C1: a two-element indexed block (one internal-state sub-block
fresh from build, one pre-fixed boundary sub-block), the reaction notebook's
state arguments, and an identity solver step. -/
theorem release_after_prepare_roundtrip_witness :
    (∀ b ∈ [goodBlockPre, goodBlockFixed],
      b.defined_state = false → b.mole_fraction_constraint = some true) ∧
    prepare_state [goodBlockPre, goodBlockFixed] wArgs false =
      Except.ok (preparedBlocks [goodBlockPre, goodBlockFixed] wArgs false,
        some (fix_state_vars [goodBlockPre, goodBlockFixed] wArgs).2) ∧
    List.Forall₂ solverPreserves
      (preparedBlocks [goodBlockPre, goodBlockFixed] wArgs false)
      (preparedBlocks [goodBlockPre, goodBlockFixed] wArgs false) ∧
    ((some (fix_state_vars [goodBlockPre, goodBlockFixed] wArgs).2 : Option Flags).isSome
        = true ∧
      (unfix_state (preparedBlocks [goodBlockPre, goodBlockFixed] wArgs false)
          (some (fix_state_vars [goodBlockPre, goodBlockFixed] wArgs).2)).map observedState
        = [goodBlockPre, goodBlockFixed].map observedState) := by
  have h1 : ∀ b ∈ [goodBlockPre, goodBlockFixed],
      b.defined_state = false → b.mole_fraction_constraint = some true := by decide
  have h2 : prepare_state [goodBlockPre, goodBlockFixed] wArgs false =
      Except.ok (preparedBlocks [goodBlockPre, goodBlockFixed] wArgs false,
        some (fix_state_vars [goodBlockPre, goodBlockFixed] wArgs).2) := rfl
  have h3 := solverPreserves_forall₂_refl
    (preparedBlocks [goodBlockPre, goodBlockFixed] wArgs false)
  exact ⟨h1, h2, h3, release_after_prepare_roundtrip h1 h2 h3⟩

/-- C4: divergence theorem.  The notebook's `initialize_state` never completes
for any solver and any block: the free-variable count evaluates the unbound
name `number_unifxed_variables` (`NameError` on every nonempty block), and
even on an empty block the final log line's `str.formate` raises
`AttributeError` — so, contrary to the claim, an exception always propagates
out of the solve step's function. -/
theorem initialize_state_never_completes
    (solve : List SubBlock → Except Unit (List SubBlock)) (blk : List SubBlock) :
    initialize_state solve blk =
      Except.error
        (if blk.isEmpty then PyError.attributeError else PyError.nameError) :=
  initialize_state_always_errors solve blk

/-- C5: divergence theorem.  The notebook's `initialize_state` never consults
the solver — its result is identical for any two solvers — because the
free-variable count it would branch on raises `NameError` (the counting
function's name is misspelled). -/
theorem initialize_state_ignores_solver
    (solve1 solve2 : List SubBlock → Except Unit (List SubBlock))
    (blk : List SubBlock) (b : SubBlock) :
    initialize_state solve1 blk = initialize_state solve2 blk ∧
    number_unifxed_variables b = Except.error PyError.nameError := by
  refine ⟨?_, rfl⟩
  rw [initialize_state_always_errors, initialize_state_always_errors]

/-- C3: divergence theorem.  `restore_state` itself does behave as the claim
describes (with `hold_state` it returns the flags and leaves the blocks
untouched; without it it runs `release_state` and returns `None`), but inside
`_HDAStateBlock.initialize` that step is unreachable: for every solver, block,
argument set and flag combination the method raises before `restore_state`
runs, so the variables fixed by prepare are never freed before `initialize`
returns. -/
theorem restore_step_unreachable
    (solve : List SubBlock → Except Unit (List SubBlock)) (blk : List SubBlock)
    (args : StateArgs) (svf hold : Bool) :
    (∃ e, hda_initialize_method solve blk args svf hold = Except.error e) ∧
    (∀ (blkX : List SubBlock) (f : Flags),
      restore_state blkX (some f) true = (blkX, some f)) ∧
    (∀ (blkX : List SubBlock) (fl : Option Flags),
      restore_state blkX fl false = (release_state blkX fl, none)) := by
  refine ⟨?_, fun blkX f => rfl, fun blkX fl => rfl⟩
  cases hp : prepare_state blk args svf with
  | error e =>
    refine ⟨e, ?_⟩
    unfold hda_initialize_method
    rw [hp]
  | ok pr =>
    refine ⟨if pr.1.isEmpty then PyError.attributeError else PyError.nameError, ?_⟩
    unfold hda_initialize_method
    rw [hp]
    show (match initialize_state solve pr.1 with
        | Except.error e => Except.error e
        | Except.ok st => Except.ok (none, (restore_state st.1 pr.2 hold).1)) =
      Except.error (if pr.1.isEmpty then PyError.attributeError else PyError.nameError)
    rw [initialize_state_always_errors]

/-- C2: after `prepare_state` has fixed the state variables (or verified they
were pre-fixed) and deactivated the consistency constraints, every sub-block
accepted by the check has zero degrees of freedom; if any sub-block has
nonzero degrees of freedom, `prepare_state` raises the fatal exception the
spec names `PreconditionError`, which propagates through
`_HDAStateBlock.initialize` and aborts initialization rather than being a
warning. -/
theorem prepare_state_dof_check
    (solve : List SubBlock → Except Unit (List SubBlock)) (hold : Bool)
    {blkBad blkOk blkOk2 : List SubBlock} {argsB argsO : StateArgs}
    {svfB svfO : Bool} {fl : Option Flags}
    (hbad : ∃ b ∈ preparedBlocks blkBad argsB svfB, degrees_of_freedom b ≠ 0)
    (hok : prepare_state blkOk argsO svfO = Except.ok (blkOk2, fl)) :
    prepare_state blkBad argsB svfB = Except.error PyError.preconditionError ∧
    hda_initialize_method solve blkBad argsB svfB hold =
      Except.error PyError.preconditionError ∧
    ∀ b ∈ blkOk2, degrees_of_freedom b = 0 := by
  have hgate : ((preparedBlocks blkBad argsB svfB).all
      (fun b => degrees_of_freedom b == 0)) = false := by
    obtain ⟨b, hb, hne⟩ := hbad
    rw [List.all_eq_false]
    exact ⟨b, hb, by simpa using hne⟩
  have herr : prepare_state blkBad argsB svfB =
      Except.error PyError.preconditionError := by
    unfold prepare_state
    rw [hgate]
    simp
  refine ⟨herr, ?_, ?_⟩
  · unfold hda_initialize_method
    rw [herr]
  · unfold prepare_state at hok
    split at hok
    · next hgateOk =>
      rw [Except.ok.injEq, Prod.mk.injEq] at hok
      obtain ⟨hb2, -⟩ := hok
      subst hb2
      intro b hb
      have h3 := List.all_eq_true.mp hgateOk b hb
      simpa using h3
    · exact absurd hok (by simp)

/-- Witness for C2: a malformed one-block input (one free variable left after
fixing) on which `prepare_state` raises, and a well-posed pre-fixed one-block
input on which it succeeds with all degrees of freedom zero. -/
theorem prepare_state_dof_check_witness :
    (∃ b ∈ preparedBlocks [badBlock] wArgs false, degrees_of_freedom b ≠ 0) ∧
    prepare_state [goodBlockFixed] wArgs true = Except.ok ([goodBlockFixed], none) ∧
    (prepare_state [badBlock] wArgs false = Except.error PyError.preconditionError ∧
      hda_initialize_method solveOk [badBlock] wArgs false false =
        Except.error PyError.preconditionError ∧
      ∀ b ∈ [goodBlockFixed], degrees_of_freedom b = 0) := by
  have h1 : ∃ b ∈ preparedBlocks [badBlock] wArgs false,
      degrees_of_freedom b ≠ 0 := by decide
  have h2 : prepare_state [goodBlockFixed] wArgs true =
      Except.ok ([goodBlockFixed], none) := rfl
  exact ⟨h1, h2, prepare_state_dof_check solveOk false h1 h2⟩

/-- C6: a sub-block whose state is externally defined never owns a
mole-fraction consistency constraint (`add_mole_fraction_constraint` creates
it only when `defined_state` is false), and the deactivation loop of
`prepare_state` and the reactivation loop of `unfix_state` leave such a
sub-block entirely untouched. -/
theorem defined_state_frame (b : SubBlock)
    (hds : b.defined_state = true)
    (hwf : b.mole_fraction_constraint = add_mole_fraction_constraint b.defined_state) :
    b.mole_fraction_constraint = none ∧
    deactivateStep b = b ∧
    activateStep b = b ∧
    (∀ ds : Bool, (add_mole_fraction_constraint ds).isSome = true ↔ ds = false) := by
  refine ⟨?_, ?_, ?_, ?_⟩
  · rw [hwf, hds]
    rfl
  · unfold deactivateStep
    rw [hds]
    simp
  · unfold activateStep
    rw [hds]
    simp
  · intro ds
    cases ds <;> simp [add_mole_fraction_constraint]

/-- Witness for C6: the concrete externally-defined sub-block. -/
theorem defined_state_frame_witness :
    (badBlock.defined_state = true ∧
      badBlock.mole_fraction_constraint =
        add_mole_fraction_constraint badBlock.defined_state) ∧
    (badBlock.mole_fraction_constraint = none ∧
      deactivateStep badBlock = badBlock ∧
      activateStep badBlock = badBlock ∧
      ∀ ds : Bool, (add_mole_fraction_constraint ds).isSome = true ↔ ds = false) :=
  ⟨⟨rfl, rfl⟩, defined_state_frame badBlock rfl rfl⟩

/-- C7: the enthalpy expression built by `add_enth_mol`, evaluated at
temperature equal to the reference temperature, collapses to the
mole-fraction-weighted sum of the reference heats of formation: every
polynomial difference term vanishes. -/
theorem enth_mol_at_reference_temperature (x : Comp → ℚ) (Tr : ℚ) :
    enth_mol x Tr Tr =
      (componentList.map (fun j => x j * enth_mol_form_vap_comp_ref j)).sum := by
  simp [enth_mol, componentList]

/-- C8: the equilibrium constraint built by `define_equilibrium_expression`
is the multiplied-through form `k_eq * x[benzene] * P = x[diphenyl] *
x[hydrogen] * P^2`; on any state with positive benzene mole fraction and
in-bounds pressure it is equivalent to the quotient form
`k_eq = x[diphenyl] * x[hydrogen] * P^2 / (x[benzene] * P)`, and it holds
numerically at `P = 350000`, `k_eq = 10000` for sample mole fractions
satisfying that ratio. -/
theorem equilibrium_constraint_form (x : Comp → ℚ) (P kq : ℚ)
    (hx : 0 < x Comp.benzene) (hPl : pressure_lower_bound ≤ P)
    (_hPu : P ≤ pressure_upper_bound) :
    (equilibrium_constraint kq x P ↔
      kq = x Comp.diphenyl * x Comp.hydrogen * P ^ 2 / (x Comp.benzene * P)) ∧
    equilibrium_constraint k_eq xSample 350000 := by
  have hP : 0 < P := lt_of_lt_of_le (by norm_num [pressure_lower_bound]) hPl
  have hne : x Comp.benzene * P ≠ 0 := by positivity
  constructor
  · unfold equilibrium_constraint
    rw [eq_div_iff hne]
    constructor
    · intro h
      linear_combination h
    · intro h
      linear_combination h
  · show equilibrium_constraint k_eq xSample 350000
    norm_num [equilibrium_constraint, k_eq, xSample]

/-- Witness for C8: the sample state (`x[benzene] = 0.35`,
`x[diphenyl] = x[hydrogen] = 0.1`, `P = 350000`, `k_eq = 10000`). -/
theorem equilibrium_constraint_form_witness :
    (0 < xSample Comp.benzene ∧ pressure_lower_bound ≤ (350000 : ℚ) ∧
      (350000 : ℚ) ≤ pressure_upper_bound) ∧
    ((equilibrium_constraint k_eq xSample 350000 ↔
        k_eq = xSample Comp.diphenyl * xSample Comp.hydrogen * (350000 : ℚ) ^ 2 /
          (xSample Comp.benzene * 350000)) ∧
      equilibrium_constraint k_eq xSample 350000) := by
  have h1 : 0 < xSample Comp.benzene := by norm_num [xSample]
  have h2 : pressure_lower_bound ≤ (350000 : ℚ) := by norm_num [pressure_lower_bound]
  have h3 : (350000 : ℚ) ≤ pressure_upper_bound := by norm_num [pressure_upper_bound]
  exact ⟨⟨h1, h2, h3⟩, equilibrium_constraint_form xSample 350000 k_eq h1 h2 h3⟩

/-- C9 counterexample: at a concrete well-posed input with
`hold_state = True`, the literal `_HDAStateBlock.initialize` does not return
`None` (or anything else) — it raises `NameError` from `initialize_state`. -/
theorem hda_initialize_literal_raises_cex :
    hda_initialize_method solveOk [goodBlockPre] wArgs false true =
      Except.error PyError.nameError := rfl

/-- C9 (amended): once the two misspelled calls in `initialize_state` are
repaired as the spec's design notes direct, `_HDAStateBlock.initialize`
returns `None` for every argument combination — the `FixFlags` value returned
by `restore_state` is discarded inside `initialize`, so a caller passing
`hold_state=True` never receives the flags object `release_state` requires. -/
theorem hda_initialize_intended_returns_none
    (solve : List SubBlock → Except Unit (List SubBlock))
    {blk : List SubBlock} {args : StateArgs} {svf hold : Bool}
    {r : Option Flags × List SubBlock}
    (h : hda_initialize_method_intended solve blk args svf hold = Except.ok r) :
    r.1 = none := by
  unfold hda_initialize_method_intended at h
  cases hp : prepare_state blk args svf with
  | error e =>
    rw [hp] at h
    exact absurd h (by simp)
  | ok pr =>
    rw [hp] at h
    have h2 := Except.ok.inj h
    rw [← h2]

/-- Witness for C9's amended theorem: a concrete `hold_state=True` run of the
repaired method completes and returns `None`, discarding the flags. -/
theorem hda_initialize_intended_returns_none_witness :
    hda_initialize_method_intended solveOk [goodBlockPre] wArgs false true =
      Except.ok ((none : Option Flags), preparedBlocks [goodBlockPre] wArgs false) ∧
    ((none : Option Flags), preparedBlocks [goodBlockPre] wArgs false).1 = none := by
  have h : hda_initialize_method_intended solveOk [goodBlockPre] wArgs false true =
      Except.ok ((none : Option Flags), preparedBlocks [goodBlockPre] wArgs false) := rfl
  exact ⟨h, hda_initialize_intended_returns_none solveOk h⟩

/-- C10: `_HDAReactionBlock.initialize` only emits a log message — for every
reaction-block state, out-level and keyword-argument combination it changes no
variable value, no fixed/free status and no constraint active-status, invokes
no solver, and leaves the block equal to its prior state. -/
theorem reaction_initialize_noop (blk : ReactionBlock) (outlvl : Nat)
    (kwargs : List (String × String)) :
    (hda_reaction_initialize_method blk outlvl kwargs).1 = blk ∧
    (hda_reaction_initialize_method blk outlvl kwargs).2 =
      ["Initialization complete."] :=
  ⟨rfl, rfl⟩

end HDA
